import Mathlib

/-!
Shallow embedding of `flytekit_learn/fastapi.py`: the train/predict execution
dispatchers, the labelling-session endpoint over the process-wide
`APP_LABELLER_CACHE`, and the registration-time hyperparameter schema shaping
in `_app_decorator_wrapper`.

Modelling conventions:
- opaque payloads (models, metrics, batches, feature tensors, predictions)
  are `Nat`; request dictionaries are associaton lists `List (String × Nat)`;
- calls to external collaborators (the flytekit remote client, the dataset
  provider, the model's local train/predict) are recorded in an effect log
  `List Eff` so that "no remote call happens" is a statement about the log;
- Python exceptions become `Except` errors; `HTTPException(status, detail)`
  keeps its status code and detail string;
- mutation of `model._latest_model` / `model._metrics` becomes returning an
  updated `ModelHandle`; mutation of `APP_LABELLER_CACHE` becomes returning
  an updated association list of sessions.
-/

namespace FklFastapi

/-- One observable call to a collaborator, in program order. -/
inductive Eff where
  | fetch_workflow (name : String)      -- model._remote.fetch_workflow(name=..., ...)
  | executeRemote (name : String)       -- model._remote.execute(wf, inputs=..., wait=True)
  | list_executions (name : String)     -- model._remote.client.list_executions_paginated(...)
  | syncExecution                       -- model._remote.sync(latest_training_execution)
  | get_features                        -- model._dataset.get_features(features)
  | localTrain                          -- model.train(**inputs)
  | localPredict                        -- model.predict(**workflow_inputs)
deriving DecidableEq, Repr

/-- Modelled from the spec: the Dataset Provider's resumable labelling
computation (`model._dataset._labeller`, a Python generator) is not part of
the source under src/.  Per §4.3/§9 of the spec it is a resumable unit of
work: advancing it either yields the next batch or signals exhaustion
(exhaustion is permanent), and resuming it with a submission always succeeds
and records the submission for the computation's next step. -/
structure Generator where
  batches : List Nat
  received : List (Option (List Nat))
deriving DecidableEq, Repr

/-- `next(generator)`: yield the next batch, or signal `StopIteration`
(`none`) when exhausted; an exhausted generator stays exhausted. -/
def generatorNext (g : Generator) : Option (Nat × Generator) :=
  match g.batches with
  | [] => none
  | b :: rest => some (b, { g with batches := rest })

/-- `generator.send(submission)`: resume the suspended computation with the
caller's submission. -/
def generatorSend (g : Generator) (submission : Option (List Nat)) : Generator :=
  { g with received := g.received ++ [submission] }

/-- The Model Handle consumed by the endpoints: workflow name templates, the
declared hyperparameter schema, the `_latest_model` / `_metrics` cache pair,
and the local train/predict operations plus dataset-provider callbacks. -/
structure ModelHandle where
  train_workflow_name : String
  predict_workflow_name : String
  predict_from_features_workflow_name : String
  hyperparameters : List (String × String)            -- model._hyperparameters
  latest_model : Option Nat                           -- model._latest_model
  metrics : Option Nat                                -- model._metrics
  train : List (String × Nat) → Nat × Nat             -- model.train(**inputs)
  predict : List (String × Nat) → Nat                 -- model.predict(**workflow_inputs)
  dataset_get_features : List Nat → Nat               -- model._dataset.get_features
  dataset_labeller : String → Nat → List (String × Nat) → Generator
                                                      -- model._dataset._labeller(...)

/-- A historical workflow execution as returned by the remote client. -/
structure ExecutionRecord where
  launch_plan : String
  phase : String
  created_at : Nat
  trained_model : Nat                                 -- execution.outputs["trained_model"]
deriving DecidableEq, Repr

/-- The Remote Execution Gateway: its stored execution history and the
outputs its `execute` calls produce. -/
structure Remote where
  executions : List ExecutionRecord
  train_outputs : String → List (String × Nat) → Nat × Nat
  predict_output : String → List (String × Nat) → Nat

/-- Insert keeping a descending `created_at` order. -/
def insertDesc (e : ExecutionRecord) : List ExecutionRecord → List ExecutionRecord
  | [] => [e]
  | x :: xs => if x.created_at ≤ e.created_at then e :: x :: xs else x :: insertDesc e xs

/-- Sort executions by `created_at`, most recent first (the gateway honours
`Sort("created_at", DESCENDING)`). -/
def sortDesc : List ExecutionRecord → List ExecutionRecord
  | [] => []
  | x :: xs => insertDesc x (sortDesc xs)

/-- `list_executions_paginated(project, domain, limit=1,
filters=[Equal("launch_plan.name", name), Equal("phase", "SUCCEEDED")],
sort_by=Sort("created_at", DESCENDING))`. -/
def listExecutionsPaginated (remote : Remote) (name : String) : List ExecutionRecord :=
  (sortDesc (remote.executions.filter
    (fun e => e.launch_plan == name && e.phase == "SUCCEEDED"))).take 1

/-- Python `dict` truthiness for optional request bodies: absent or empty is
falsy. -/
def truthy {α : Type} : Option (List α) → Bool
  | none => false
  | some l => !l.isEmpty

/-- `d[k] = v` on a Python dict: overwrite in place if the key exists,
append otherwise. -/
def dictSet (d : List (String × Nat)) (k : String) (v : Nat) : List (String × Nat) :=
  if (d.map Prod.fst).contains k then
    d.map (fun p => if p.1 == k then (k, v) else p)
  else d ++ [(k, v)]

/-- `d.update(d2)` on Python dicts. -/
def dictUpdate (d : List (String × Nat)) : List (String × Nat) → List (String × Nat)
  | [] => d
  | (k, v) :: rest => dictUpdate (dictSet d k v) rest

/-- Dict lookup (first binding wins; `dictSet` keeps keys unique). -/
def dictGet (d : List (String × Nat)) (k : String) : Option Nat :=
  match d with
  | [] => none
  | (k', v) :: rest => if k' == k then some v else dictGet rest k

/-- `_train_endpoint(local, model_name, inputs)`: remote path fetches and
synchronously executes the train workflow; local path calls `model.train`
and stores the `(trained_model, metrics)` pair into the handle's cache.
(The pydantic `inputs.dict()` normalisation at the top of the Python
function is the identity here: inputs are already a dict.)
Returns the response `{"trained_model": str(...), "metrics": ...}`, the
(possibly updated) handle, and the effect log. -/
def _train_endpoint (model : ModelHandle) (remote : Remote)
    (localFlag : Bool) (model_name : Option String)
    (inputs : List (String × Nat)) :
    (String × Nat) × ModelHandle × List Eff :=
  let name := match model_name with
    | some n => n ++ ".train"
    | none => model.train_workflow_name
  if !localFlag then
    let produced := remote.train_outputs name inputs
    ((toString produced.1, produced.2), model,
      [Eff.fetch_workflow name, Eff.executeRemote name])
  else
    let produced := model.train inputs
    ((toString produced.1, produced.2),
      { model with latest_model := some produced.1, metrics := some produced.2 },
      [Eff.localTrain])

/-- Failures of `_predict_endpoint`. -/
inductive PredictError where
  /-- `raise HTTPException(status_code=..., detail=...)`. -/
  | httpException (status : Nat) (detail : String)
  /-- `[latest_training_execution, *_], _ = ...` unpacks an empty list and
  raises; the spec names this event `NoTrainedModelFound`. -/
  | noTrainedModelFound
  /-- Neither `inputs` nor `features` was truthy, so `predict_wf` was never
  assigned and `model._remote.execute(predict_wf, ...)` raises an unbound
  local variable error. -/
  | unboundPredictWf
deriving DecidableEq, Repr

/-- The body of `_predict_endpoint` after the model to score with has been
resolved: assemble `workflow_inputs = {"model": latest_model, ...}`, pick
(and fetch) the predict workflow from whichever of `inputs` / `features` is
truthy, then execute remotely or call `model.predict` locally. -/
def predictWithModel (model : ModelHandle) (remote : Remote) (localFlag : Bool)
    (model_name : Option String) (inputs : Option (List (String × Nat)))
    (features : Option (List Nat)) (latest_model : Nat) (effs0 : List Eff) :
    Except PredictError Nat × ModelHandle × List Eff :=
  let workflow_inputs0 : List (String × Nat) := [("model", latest_model)]
  let pwfName := match model_name with
    | some n => n ++ ".predict_workflow_name"
    | none => model.predict_workflow_name
  let fwfName := match model_name with
    | some n => n ++ ".predict_from_features_workflow_name"
    | none => model.predict_from_features_workflow_name
  let step :=
    if truthy inputs then
      (dictUpdate workflow_inputs0 (inputs.getD []), some pwfName,
        effs0 ++ [Eff.fetch_workflow pwfName])
    else if truthy features then
      (dictSet workflow_inputs0 "features" (model.dataset_get_features (features.getD [])),
        some fwfName,
        effs0 ++ [Eff.get_features, Eff.fetch_workflow fwfName])
    else
      (workflow_inputs0, none, effs0)
  let workflow_inputs := step.1
  let predict_wf := step.2.1
  let effs1 := step.2.2
  if !localFlag then
    match predict_wf with
    | none => (Except.error PredictError.unboundPredictWf, model, effs1)
    | some wf =>
        (Except.ok (remote.predict_output wf workflow_inputs), model,
          effs1 ++ [Eff.executeRemote wf])
  else
    (Except.ok (model.predict workflow_inputs), model, effs1 ++ [Eff.localPredict])

/-- `_predict_endpoint(local, model_name, model_version, model_source,
inputs, features)`: resolve the model to score with (remote execution
history for `model_source == "remote"`, the handle's cache otherwise), then
run `predictWithModel`.  The `version` derived from `model_version` only
parameterises the gateway's fetch and is not otherwise observable here. -/
def _predict_endpoint (model : ModelHandle) (remote : Remote)
    (localFlag : Bool) (model_name : Option String) (model_version : String)
    (model_source : String) (inputs : Option (List (String × Nat)))
    (features : Option (List Nat)) :
    Except PredictError Nat × ModelHandle × List Eff :=
  let twfName := match model_name with
    | some n => n ++ ".train"
    | none => model.train_workflow_name
  if model_source == "remote" then
    let effs := [Eff.fetch_workflow twfName, Eff.list_executions twfName]
    match listExecutionsPaginated remote twfName with
    | [] => (Except.error PredictError.noTrainedModelFound, model, effs)
    | ex :: _ =>
        predictWithModel model remote localFlag model_name inputs features
          ex.trained_model (effs ++ [Eff.syncExecution])
  else
    match model.latest_model with
    | none =>
        (Except.error (PredictError.httpException 500 "trained model not found"),
          model, [])
    | some m =>
        predictWithModel model remote localFlag model_name inputs features m []

/-- One `APP_LABELLER_CACHE[session_id]` entry. -/
structure Session where
  generator : Generator
  awaiting_submission : Bool
  session_complete : Bool
deriving DecidableEq, Repr

/-- The process-wide `APP_LABELLER_CACHE`, as an association list. -/
abbrev Cache := List (String × Session)

/-- `session_id in APP_LABELLER_CACHE` / entry read. -/
def cacheLookup (c : Cache) (k : String) : Option Session :=
  match c with
  | [] => none
  | (k', v) :: rest => if k' == k then some v else cacheLookup rest k

/-- `APP_LABELLER_CACHE[session_id] = entry` (overwrite or append). -/
def cacheUpdate (c : Cache) (k : String) (v : Session) : Cache :=
  match c with
  | [] => [(k, v)]
  | (k', v') :: rest =>
      if k' == k then (k, v) :: rest else (k', v') :: cacheUpdate rest k v

/-- In-place field assignment on an existing entry, e.g.
`APP_LABELLER_CACHE[session_id]["awaiting_submission"] = True`. -/
def cacheModify (c : Cache) (k : String) (f : Session → Session) : Cache :=
  match c with
  | [] => []
  | (k', v) :: rest =>
      if k' == k then (k, f v) :: rest else (k', v) :: cacheModify rest k f

/-- Failures of `_labeller_endpoint`. -/
inductive LabelError where
  /-- `raise HTTPException(status_code=..., detail=...)`. -/
  | httpException (status : Nat) (detail : String)
  /-- First request for a session with `reader_inputs is None`:
  `model._dataset._labeller(session_id, batch_size, **reader_inputs)` raises
  a `TypeError` at the call site (`**None` is not a mapping), before the
  cache entry is created. -/
  | readerInputsTypeError
deriving DecidableEq, Repr

/-- Responses of `_labeller_endpoint`. -/
inductive LabelResp where
  /-- `{"success": ..., "session_complete": ...}` after accepting labels. -/
  | submitted (success : Bool) (session_complete : Bool)
  /-- `{"batch": ..., "session_complete": ...}`. -/
  | batchResp (batch : Option Nat) (session_complete : Bool)
deriving DecidableEq, Repr

/-- The part of `_labeller_endpoint` from `if submit:` on, once the session's
`generator` and `awaiting_submission` have been read (the entry for
`session_id` is present in `cache` at this point). -/
def labellerStep (cache : Cache) (session_id : String) (generator : Generator)
    (awaiting_submission : Bool) (submit : Bool)
    (submission : Option (List Nat)) : Except LabelError LabelResp × Cache :=
  if submit then
    if !awaiting_submission then
      (Except.error (LabelError.httpException 400 "Labels already submitted for current batch"),
        cache)
    else
      let g' := generatorSend generator submission
      (Except.ok (LabelResp.submitted true false),
        cacheModify cache session_id
          (fun s => { s with generator := g', awaiting_submission := false }))
  else
    if awaiting_submission then
      (Except.error (LabelError.httpException 400 "Awaiting labels from current batch"),
        cache)
    else
      match generatorNext generator with
      | some (batch, g') =>
          (Except.ok (LabelResp.batchResp (some batch) false),
            cacheModify cache session_id
              (fun s => { s with generator := g', awaiting_submission := true }))
      | none =>
          (Except.ok (LabelResp.batchResp none true),
            cacheModify cache session_id
              (fun s => { s with session_complete := true }))

/-- `_labeller_endpoint(session_id, batch_size, submit, reader_inputs,
submission)`: initialise the session on first sight of `session_id`
(constructing the resumable computation from `reader_inputs`), then route to
the submit branch or the next-batch branch. -/
def _labeller_endpoint (model : ModelHandle) (cache : Cache)
    (session_id : String) (batch_size : Nat) (submit : Bool)
    (reader_inputs : Option (List (String × Nat)))
    (submission : Option (List Nat)) : Except LabelError LabelResp × Cache :=
  match cacheLookup cache session_id with
  | none =>
      match reader_inputs with
      | none => (Except.error LabelError.readerInputsTypeError, cache)
      | some ri =>
          let generator := model.dataset_labeller session_id batch_size ri
          let cache1 := cacheUpdate cache session_id
            { generator := generator, awaiting_submission := false, session_complete := false }
          labellerStep cache1 session_id generator false submit submission
  | some s =>
      labellerStep cache session_id s.generator s.awaiting_submission submit submission

/-! Registration-time schema shaping (`_app_decorator_wrapper`). -/

/-- A FastAPI parameter's type as seen through `inspect.signature`: either
the original Python annotation (rendered as a string) or the dynamically
created pydantic `HyperparameterModel` with its `(name, type, required)`
fields. -/
inductive ParamAnn where
  | plain (ty : String)
  | hyperparameterModel (fields : List (String × String × Bool))
deriving DecidableEq, Repr

/-- One parameter of the handler's signature. -/
structure Param where
  name : String
  ann : ParamAnn
deriving DecidableEq, Repr

/-- `signature(_train_endpoint).parameters`: the train handler's declared
parameters `(local, model_name, inputs)`. -/
def trainEndpointParams : List Param :=
  [{ name := "local", ann := ParamAnn.plain "bool" },
   { name := "model_name", ann := ParamAnn.plain "Optional[str]" },
   { name := "inputs", ann := ParamAnn.plain "Dict" }]

/-- `create_model("HyperparameterModel", **{k: (v, ...) for k, v in
model._hyperparameters.items()})`: every declared hyperparameter becomes a
field of its declared type, required (the `...` default). -/
def create_model_hyperparameters (hps : List (String × String)) : ParamAnn :=
  ParamAnn.hyperparameterModel (hps.map (fun kv => (kv.1, kv.2, true)))

/-- The registration-time block guarded by `if endpoint_fn is _train_endpoint
and model._hyperparameters:` — replace the annotation of the parameter named
`"hyperparameters"` (if any) by the synthesized `HyperparameterModel`,
leaving every other parameter as it is. -/
def shapeTrainEndpointSignature (hyperparameters : List (String × String)) :
    List Param :=
  if hyperparameters.isEmpty then trainEndpointParams
  else
    trainEndpointParams.map (fun p =>
      if p.name == "hyperparameters" then
        { p with ann := create_model_hyperparameters hyperparameters }
      else p)

/-! Concrete fixtures used by witnesses and counterexamples. -/

/-- A fresh resumable computation over the given batches. -/
def testGenerator (batches : List Nat) : Generator :=
  { batches := batches, received := [] }

/-- A concrete Model Handle. -/
def testHandle : ModelHandle :=
  { train_workflow_name := "m.train"
    predict_workflow_name := "m.predict"
    predict_from_features_workflow_name := "m.predict_features"
    hyperparameters := []
    latest_model := none
    metrics := none
    train := fun _ => (41, 42)
    predict := fun wi => (dictGet wi "model").getD 0 + 100
    dataset_get_features := fun l => l.length
    dataset_labeller := fun _ _ _ => testGenerator [10, 11] }

/-- `testHandle` after some model has been trained locally. -/
def trainedHandle : ModelHandle :=
  { testHandle with latest_model := some 7, metrics := some 9 }

/-- A concrete gateway with an empty execution history. -/
def testRemote : Remote :=
  { executions := []
    train_outputs := fun _ _ => (7, 8)
    predict_output := fun _ wi => (dictGet wi "model").getD 0 + 200 }

/-- A concrete gateway holding one successful historical train execution. -/
def testRemoteWithHistory : Remote :=
  { testRemote with executions :=
      [{ launch_plan := "m.train", phase := "SUCCEEDED", created_at := 5,
         trained_model := 3 }] }

end FklFastapi

namespace FklFastapi

/-- C1: the claim says that when the Model Handle declares hyperparameters,
the train endpoint's accepted input schema is synthesized from that
declaration at registration time, each hyperparameter becoming a required
field.  On the code this fails: the registration block replaces the
annotation of a parameter named "hyperparameters", but `_train_endpoint`'s
parameters are `(local, model_name, inputs)`, so for every declared
hyperparameter dictionary the signature is left exactly as it was and no
parameter carries the synthesized `HyperparameterModel`. -/
theorem hyperparameter_schema_shaping_is_noop :
    ∀ hyperparameters : List (String × String),
      shapeTrainEndpointSignature hyperparameters = trainEndpointParams ∧
      (trainEndpointParams.all (fun p =>
        match p.ann with
        | ParamAnn.plain _ => true
        | ParamAnn.hyperparameterModel _ => false)) = true := by
  intro hps
  constructor
  · unfold shapeTrainEndpointSignature
    split
    · rfl
    · rfl
  · rfl

/-- C3: the claim says a predict request with neither `inputs` nor
`features` is rejected before any execution is attempted, with no workflow
fetched and no local predict invoked.  On the code this fails: with
`local = true` and `model_source = "local"` the Model Handle's local
predict IS invoked (with only the resolved model), and with
`model_source = "remote"` the train workflow IS fetched and the execution
history listed before the handler dies on the never-assigned `predict_wf`
variable. -/
theorem predict_without_inputs_or_features_still_executes :
    ((_predict_endpoint trainedHandle testRemote true none "latest" "local" none none).1
        = Except.ok (trainedHandle.predict [("model", 7)]) ∧
      Eff.localPredict ∈
        (_predict_endpoint trainedHandle testRemote true none "latest" "local" none none).2.2) ∧
    ((_predict_endpoint trainedHandle testRemoteWithHistory false none "latest" "remote" none none).1
        = Except.error PredictError.unboundPredictWf ∧
      Eff.fetch_workflow "m.train" ∈
        (_predict_endpoint trainedHandle testRemoteWithHistory false none "latest" "remote" none none).2.2 ∧
      Eff.list_executions "m.train" ∈
        (_predict_endpoint trainedHandle testRemoteWithHistory false none "latest" "remote" none none).2.2) := by
  refine ⟨⟨rfl, ?_⟩, rfl, ?_, ?_⟩ <;> decide

/-- C10: a first request for an unknown `session_id` with `reader_inputs`
absent fails before a session is created — the `**reader_inputs` call
raises, the session table is unchanged, and it still has no entry for that
`session_id`. -/
theorem first_request_without_reader_inputs_creates_no_session
    (model : ModelHandle) (cache : Cache) (session_id : String)
    (batch_size : Nat) (submit : Bool) (submission : Option (List Nat))
    (h : cacheLookup cache session_id = none) :
    (_labeller_endpoint model cache session_id batch_size submit none submission).1
        = Except.error LabelError.readerInputsTypeError ∧
    (_labeller_endpoint model cache session_id batch_size submit none submission).2
        = cache ∧
    cacheLookup
      (_labeller_endpoint model cache session_id batch_size submit none submission).2
      session_id = none := by
  unfold _labeller_endpoint
  rw [h]
  exact ⟨rfl, rfl, h⟩

/-- Witness for C10 at a concrete input: empty session table. -/
theorem first_request_without_reader_inputs_creates_no_session_witness :
    (_labeller_endpoint testHandle [] "s" 3 false none none).1
        = Except.error LabelError.readerInputsTypeError ∧
    (_labeller_endpoint testHandle [] "s" 3 false none none).2 = [] ∧
    cacheLookup (_labeller_endpoint testHandle [] "s" 3 false none none).2 "s" = none :=
  first_request_without_reader_inputs_creates_no_session testHandle [] "s" 3 false none rfl

/-! Association-list lemmas about the session table. -/

/-- A successful lookup exhibits a member of the table. -/
theorem cacheLookup_mem {c : Cache} {k : String} {s : Session}
    (h : cacheLookup c k = some s) : (k, s) ∈ c := by
  induction c with
  | nil => simp [cacheLookup] at h
  | cons p rest ih =>
      obtain ⟨k', v⟩ := p
      unfold cacheLookup at h
      by_cases hk : k' = k
      · subst hk
        simp at h
        subst h
        exact List.mem_cons_self _ _
      · have : (k' == k) = false := by simpa using hk
        rw [this] at h
        simp at h
        exact List.mem_cons_of_mem _ (ih h)

/-- Looking up the key just written by `cacheUpdate`. -/
theorem cacheLookup_cacheUpdate_self (c : Cache) (k : String) (v : Session) :
    cacheLookup (cacheUpdate c k v) k = some v := by
  induction c with
  | nil => simp [cacheUpdate, cacheLookup]
  | cons p rest ih =>
      obtain ⟨k', v'⟩ := p
      by_cases hk : k' = k
      · subst hk
        simp [cacheUpdate, cacheLookup]
      · have hkb : (k' == k) = false := by simpa using hk
        simp [cacheUpdate, cacheLookup, hkb, ih]

/-- Looking up the key just modified in place by `cacheModify`. -/
theorem cacheLookup_cacheModify_self {c : Cache} {k : String} {s : Session}
    (f : Session → Session) (h : cacheLookup c k = some s) :
    cacheLookup (cacheModify c k f) k = some (f s) := by
  induction c with
  | nil => simp [cacheLookup] at h
  | cons p rest ih =>
      obtain ⟨k', v⟩ := p
      by_cases hk : k' = k
      · subst hk
        simp [cacheLookup] at h
        subst h
        simp [cacheModify, cacheLookup]
      · have hkb : (k' == k) = false := by simpa using hk
        simp [cacheLookup, hkb] at h
        simp [cacheModify, cacheLookup, hkb, ih h]

/-- An in-place modification that fixes the stored entry leaves the table
unchanged. -/
theorem cacheModify_eq_of_fix {c : Cache} {k : String} {s : Session}
    {f : Session → Session} (h : cacheLookup c k = some s) (hf : f s = s) :
    cacheModify c k f = c := by
  induction c with
  | nil => rfl
  | cons p rest ih =>
      obtain ⟨k', v⟩ := p
      by_cases hk : k' = k
      · subst hk
        simp [cacheLookup] at h
        subst h
        simp [cacheModify, hf]
      · have hkb : (k' == k) = false := by simpa using hk
        simp [cacheLookup, hkb] at h
        simp [cacheModify, hkb, ih h]

/-- Keys other than the modified one are untouched by `cacheModify`. -/
theorem cacheLookup_cacheModify_other {c : Cache} {k k' : String}
    (f : Session → Session) (hne : k' ≠ k) :
    cacheLookup (cacheModify c k f) k' = cacheLookup c k' := by
  induction c with
  | nil => rfl
  | cons p rest ih =>
      obtain ⟨a, v⟩ := p
      by_cases ha : a = k
      · subst ha
        have h1 : (a == k') = false := by
          simpa using fun h => hne h.symm
        simp [cacheModify, cacheLookup, h1]
      · have hab : (a == k) = false := by simpa using ha
        by_cases hak : a = k'
        · subst hak
          simp [cacheModify, cacheLookup, hab]
        · have hakb : (a == k') = false := by simpa using hak
          simp [cacheModify, cacheLookup, hab, hakb, ih]

/-- A session in which a batch has been delivered and not yet submitted. -/
def awaitingSession : Session :=
  { generator := testGenerator [11], awaiting_submission := true,
    session_complete := false }

/-- C2 counterexample: the order of checks in `_labeller_endpoint` puts
session initialisation before the submit-branch rejection: a first-ever
request for an unknown
`session_id` with `submit = true` (and `reader_inputs` present) is rejected
with the 400 `NoSubmissionExpected` error, yet it leaves behind a freshly
created session entry — the table is not as it was before the request. -/
theorem first_submit_request_creates_session_entry :
    (_labeller_endpoint testHandle [] "s" 3 true (some []) none).1
        = Except.error
            (LabelError.httpException 400 "Labels already submitted for current batch") ∧
    (_labeller_endpoint testHandle [] "s" 3 true (some []) none).2
        = [("s", { generator := testHandle.dataset_labeller "s" 3 [],
                   awaiting_submission := false, session_complete := false })] :=
  ⟨rfl, rfl⟩

/-- C2 amended: for a session that already has an entry in the table, every
request answered with an error (for existing sessions exactly the two 400
protocol rejections, `SubmissionPending` and `NoSubmissionExpected`) leaves
the session table — and hence every session's generator,
awaiting_submission flag and session_complete flag — exactly as it was; but
a rejected first-ever request for its `session_id` (necessarily rejected
with `NoSubmissionExpected`) first creates the fresh session entry, so the
table afterwards differs from the one before the request. -/
theorem labeller_endpoint_existing
    (model : ModelHandle) (cache : Cache) (session_id : String)
    (batch_size : Nat) (submit : Bool)
    (reader_inputs : Option (List (String × Nat)))
    (submission : Option (List Nat)) (s : Session)
    (hs : cacheLookup cache session_id = some s) :
    _labeller_endpoint model cache session_id batch_size submit
        reader_inputs submission
      = labellerStep cache session_id s.generator s.awaiting_submission
          submit submission := by
  unfold _labeller_endpoint
  rw [hs]

theorem labellerStep_error_cache_unchanged
    (cache : Cache) (session_id : String) (generator : Generator)
    (awaiting submit : Bool) (submission : Option (List Nat)) (e : LabelError)
    (he : (labellerStep cache session_id generator awaiting submit
            submission).1 = Except.error e) :
    (labellerStep cache session_id generator awaiting submit submission).2
      = cache := by
  unfold labellerStep at he ⊢
  cases submit <;> cases awaiting <;> simp_all
  cases hg : generatorNext generator with
  | none => rw [hg] at he; simp at he
  | some p => rw [hg] at he; simp at he

theorem rejected_request_leaves_existing_sessions_unchanged
    (model : ModelHandle) (cache : Cache) (session_id : String)
    (batch_size : Nat) (submit : Bool)
    (reader_inputs : Option (List (String × Nat)))
    (submission : Option (List Nat)) (s : Session) (e : LabelError)
    (hs : cacheLookup cache session_id = some s)
    (he : (_labeller_endpoint model cache session_id batch_size submit
            reader_inputs submission).1 = Except.error e) :
    (_labeller_endpoint model cache session_id batch_size submit
        reader_inputs submission).2 = cache := by
  rw [labeller_endpoint_existing model cache session_id batch_size submit
    reader_inputs submission s hs] at he ⊢
  exact labellerStep_error_cache_unchanged _ _ _ _ _ _ e he

/-- Witness for the C2 amended theorem at a concrete input: a next-batch
request against a session that is awaiting submission is rejected and the
table is unchanged. -/
theorem rejected_request_leaves_existing_sessions_unchanged_witness :
    (_labeller_endpoint testHandle [("s", awaitingSession)] "s" 3 false none none).2
        = [("s", awaitingSession)] :=
  rejected_request_leaves_existing_sessions_unchanged testHandle
    [("s", awaitingSession)] "s" 3 false none none awaitingSession
    (LabelError.httpException 400 "Awaiting labels from current batch") rfl rfl

/-- C5: for an initialized, non-complete session, a next-batch request
(`submit = false`) is rejected with the 400 `SubmissionPending` error
(detail "Awaiting labels from current batch") exactly when a batch is
awaiting submission, and a submit request (`submit = true`) is rejected
with the 400 `NoSubmissionExpected` error (detail "Labels already submitted
for current batch") exactly when no batch is awaiting submission; in
particular a second next-batch call right after one that delivered a batch
is rejected with `SubmissionPending`, and a submit right after a submit is
rejected with `NoSubmissionExpected`. -/
theorem labeller_rejections_iff_turn_violated
    (model : ModelHandle) (cache : Cache) (session_id : String)
    (batch_size : Nat) (reader_inputs : Option (List (String × Nat)))
    (submission : Option (List Nat)) (s : Session)
    (hs : cacheLookup cache session_id = some s)
    (hnc : s.session_complete = false) :
    ((_labeller_endpoint model cache session_id batch_size false
        reader_inputs submission).1
      = Except.error (LabelError.httpException 400 "Awaiting labels from current batch")
      ↔ s.awaiting_submission = true) ∧
    ((_labeller_endpoint model cache session_id batch_size true
        reader_inputs submission).1
      = Except.error (LabelError.httpException 400 "Labels already submitted for current batch")
      ↔ s.awaiting_submission = false) ∧
    (s.awaiting_submission = false → ∀ b g',
      generatorNext s.generator = some (b, g') →
      (_labeller_endpoint model
          (_labeller_endpoint model cache session_id batch_size false
            reader_inputs submission).2
          session_id batch_size false reader_inputs submission).1
        = Except.error (LabelError.httpException 400 "Awaiting labels from current batch")) ∧
    (s.awaiting_submission = true →
      (_labeller_endpoint model
          (_labeller_endpoint model cache session_id batch_size true
            reader_inputs submission).2
          session_id batch_size true reader_inputs submission).1
        = Except.error (LabelError.httpException 400 "Labels already submitted for current batch")) := by
  refine ⟨?_, ?_, ?_, ?_⟩
  · rw [labeller_endpoint_existing model cache session_id batch_size false
      reader_inputs submission s hs]
    unfold labellerStep
    cases ha : s.awaiting_submission with
    | true => simp
    | false =>
        simp only [Bool.false_eq_true, iff_false]
        cases hg : generatorNext s.generator with
        | none => simp [hg]
        | some p => simp [hg]
  · rw [labeller_endpoint_existing model cache session_id batch_size true
      reader_inputs submission s hs]
    unfold labellerStep
    cases ha : s.awaiting_submission with
    | true => simp
    | false => simp
  · intro ha b g' hg
    have h1 := labeller_endpoint_existing model cache session_id batch_size
      false reader_inputs submission s hs
    have h2 : labellerStep cache session_id s.generator s.awaiting_submission
        false submission
        = (Except.ok (LabelResp.batchResp (some b) false),
            cacheModify cache session_id
              (fun t => { t with generator := g', awaiting_submission := true })) := by
      unfold labellerStep
      rw [ha, hg]
      simp
    rw [h1, h2]
    have hs1 : cacheLookup
        (cacheModify cache session_id
          (fun t => { t with generator := g', awaiting_submission := true }))
        session_id
        = some { s with generator := g', awaiting_submission := true } :=
      cacheLookup_cacheModify_self _ hs
    rw [labeller_endpoint_existing model _ session_id batch_size false
      reader_inputs submission _ hs1]
    unfold labellerStep
    simp
  · intro ha
    have h1 := labeller_endpoint_existing model cache session_id batch_size
      true reader_inputs submission s hs
    have h2 : labellerStep cache session_id s.generator s.awaiting_submission
        true submission
        = (Except.ok (LabelResp.submitted true false),
            cacheModify cache session_id
              (fun t => { t with
                  generator := generatorSend s.generator submission,
                  awaiting_submission := false })) := by
      unfold labellerStep
      rw [ha]
      simp
    rw [h1, h2]
    have hs1 : cacheLookup
        (cacheModify cache session_id
          (fun t => { t with
              generator := generatorSend s.generator submission,
              awaiting_submission := false }))
        session_id
        = some { s with
            generator := generatorSend s.generator submission,
            awaiting_submission := false } :=
      cacheLookup_cacheModify_self _ hs
    rw [labeller_endpoint_existing model _ session_id batch_size true
      reader_inputs submission _ hs1]
    unfold labellerStep
    simp

/-- Witness for C5 at concrete inputs: in a one-session table, a next-batch
request against the awaiting session is rejected iff it is awaiting (it
is), and a submit against the same session is rejected iff it is not
awaiting (it is, so no rejection). -/
theorem labeller_rejections_iff_turn_violated_witness :
    ((_labeller_endpoint testHandle [("s", awaitingSession)] "s" 3 false none none).1
      = Except.error (LabelError.httpException 400 "Awaiting labels from current batch")
      ↔ awaitingSession.awaiting_submission = true) ∧
    (awaitingSession.awaiting_submission = true →
      (_labeller_endpoint testHandle
          (_labeller_endpoint testHandle [("s", awaitingSession)] "s" 3 true none none).2
          "s" 3 true none none).1
        = Except.error (LabelError.httpException 400 "Labels already submitted for current batch")) :=
  ⟨(labeller_rejections_iff_turn_violated testHandle [("s", awaitingSession)]
      "s" 3 none none awaitingSession rfl rfl).1,
   (labeller_rejections_iff_turn_violated testHandle [("s", awaitingSession)]
      "s" 3 none none awaitingSession rfl rfl).2.2.2⟩

/-- C6: a next-batch request whose resumable computation is exhausted
returns `{batch: null, session_complete: true}` and marks the session
complete; when the session was already complete the very same call is
answered identically and leaves the session table (so also the session's
state) entirely unchanged — the transition to `complete` happens exactly
once, on the first exhausted next-batch call. -/
theorem session_completes_once_then_idempotent
    (model : ModelHandle) (cache : Cache) (session_id : String)
    (batch_size : Nat) (reader_inputs : Option (List (String × Nat)))
    (submission : Option (List Nat)) (s : Session)
    (hs : cacheLookup cache session_id = some s)
    (ha : s.awaiting_submission = false)
    (hb : s.generator.batches = []) :
    (_labeller_endpoint model cache session_id batch_size false
        reader_inputs submission).1
      = Except.ok (LabelResp.batchResp none true) ∧
    cacheLookup
      (_labeller_endpoint model cache session_id batch_size false
        reader_inputs submission).2 session_id
      = some { s with session_complete := true } ∧
    (s.session_complete = true →
      (_labeller_endpoint model cache session_id batch_size false
        reader_inputs submission).2 = cache) := by
  have hg : generatorNext s.generator = none := by
    unfold generatorNext
    rw [hb]
  rw [labeller_endpoint_existing model cache session_id batch_size false
    reader_inputs submission s hs]
  have h2 : labellerStep cache session_id s.generator s.awaiting_submission
      false submission
      = (Except.ok (LabelResp.batchResp none true),
          cacheModify cache session_id
            (fun t => { t with session_complete := true })) := by
    unfold labellerStep
    rw [ha, hg]
    simp
  rw [h2]
  refine ⟨rfl, cacheLookup_cacheModify_self _ hs, ?_⟩
  intro hcomp
  exact cacheModify_eq_of_fix hs (by cases s; simp_all)

/-- A session whose computation has been exhausted and acknowledged. -/
def completedSession : Session :=
  { generator := { batches := [], received := [] },
    awaiting_submission := false, session_complete := true }

/-- Witness for C6 at a concrete input: a next-batch call on an
already-complete session answers `{batch: null, session_complete: true}`
and changes nothing. -/
theorem session_completes_once_then_idempotent_witness :
    (_labeller_endpoint testHandle [("s", completedSession)] "s" 3 false
        none none).1
      = Except.ok (LabelResp.batchResp none true) ∧
    (_labeller_endpoint testHandle [("s", completedSession)] "s" 3 false
        none none).2
      = [("s", completedSession)] :=
  ⟨(session_completes_once_then_idempotent testHandle [("s", completedSession)]
      "s" 3 none none completedSession rfl rfl rfl).1,
   (session_completes_once_then_idempotent testHandle [("s", completedSession)]
      "s" 3 none none completedSession rfl rfl rfl).2.2 rfl⟩

/-! Reachability invariant machinery for C9. -/

/-- Every entry of `cacheUpdate c k v` is an old entry or the new pair. -/
theorem mem_cacheUpdate {c : Cache} {k : String} {v : Session}
    {p : String × Session} (hp : p ∈ cacheUpdate c k v) :
    p ∈ c ∨ p = (k, v) := by
  induction c with
  | nil => simpa [cacheUpdate] using hp
  | cons q rest ih =>
      obtain ⟨a, w⟩ := q
      by_cases hak : a = k
      · subst hak
        simp only [cacheUpdate, BEq.refl, if_true, List.mem_cons] at hp
        rcases hp with h | h
        · right; exact h
        · left; exact List.mem_cons_of_mem _ h
      · have hab : (a == k) = false := by simpa using hak
        simp only [cacheUpdate, hab, Bool.false_eq_true, if_false,
          List.mem_cons] at hp
        rcases hp with h | h
        · left; simp [h]
        · rcases ih h with h' | h'
          · left; exact List.mem_cons_of_mem _ h'
          · right; exact h'

/-- Every entry of `cacheModify c k f` is an old entry or the modified
image of the entry `cacheLookup` finds at `k`. -/
theorem mem_cacheModify {c : Cache} {k : String} {f : Session → Session}
    {p : String × Session} (hp : p ∈ cacheModify c k f) :
    p ∈ c ∨ ∃ s, cacheLookup c k = some s ∧ p = (k, f s) := by
  induction c with
  | nil => simp [cacheModify] at hp
  | cons q rest ih =>
      obtain ⟨a, w⟩ := q
      by_cases hak : a = k
      · subst hak
        simp only [cacheModify, BEq.refl, if_true, List.mem_cons] at hp
        rcases hp with h | h
        · right
          exact ⟨w, by simp [cacheLookup], h⟩
        · left; exact List.mem_cons_of_mem _ h
      · have hab : (a == k) = false := by simpa using hak
        simp only [cacheModify, hab, Bool.false_eq_true, if_false,
          List.mem_cons] at hp
        rcases hp with h | h
        · left; simp [h]
        · rcases ih h with h' | ⟨s, hl, hp'⟩
          · left; exact List.mem_cons_of_mem _ h'
          · right
            refine ⟨s, ?_, hp'⟩
            simp [cacheLookup, hab, hl]

/-- The per-session invariant maintained by the labeller endpoint: a
session is never simultaneously awaiting a submission and complete, and a
complete session's computation is exhausted. -/
def SessionInv (s : Session) : Prop :=
  ¬(s.awaiting_submission = true ∧ s.session_complete = true) ∧
  (s.session_complete = true → s.generator.batches = [])

/-- All sessions of the table satisfy the invariant. -/
def CacheInv (c : Cache) : Prop := ∀ p ∈ c, SessionInv p.2

theorem labellerStep_preserves_inv
    (cache : Cache) (session_id : String) (s : Session)
    (submit : Bool) (submission : Option (List Nat))
    (hs : cacheLookup cache session_id = some s)
    (hc : CacheInv cache) :
    CacheInv (labellerStep cache session_id s.generator s.awaiting_submission
      submit submission).2 := by
  have hsInv : SessionInv s := hc _ (cacheLookup_mem hs)
  unfold labellerStep
  cases hsub : submit with
  | true =>
      cases ha : s.awaiting_submission with
      | false => simpa using hc
      | true =>
          simp only [Bool.not_true, Bool.false_eq_true, if_false, if_true]
          intro p hp
          rcases mem_cacheModify hp with h | ⟨t, hl, hp'⟩
          · exact hc _ h
          · rw [hs] at hl
            cases hl
            subst hp'
            constructor
            · intro hcontra
              simp at hcontra
            · intro hcomp
              simpa [generatorSend] using hsInv.2 hcomp
  | false =>
      cases ha : s.awaiting_submission with
      | true => simpa using hc
      | false =>
          simp only [Bool.false_eq_true, if_false]
          cases hg : generatorNext s.generator with
          | some q =>
              obtain ⟨b, g'⟩ := q
              have hcomp : s.session_complete = false := by
                by_contra hcc
                have hbat := hsInv.2 (by simpa using hcc)
                unfold generatorNext at hg
                rw [hbat] at hg
                simp at hg
              intro p hp
              rcases mem_cacheModify hp with h | ⟨t, hl, hp'⟩
              · exact hc _ h
              · rw [hs] at hl
                cases hl
                subst hp'
                constructor
                · intro hcontra
                  rw [hcomp] at hcontra
                  simp at hcontra
                · intro hcc
                  rw [hcomp] at hcc
                  simp at hcc
          | none =>
              have hbat : s.generator.batches = [] := by
                unfold generatorNext at hg
                cases hbb : s.generator.batches with
                | nil => rfl
                | cons x xs => rw [hbb] at hg; simp at hg
              intro p hp
              rcases mem_cacheModify hp with h | ⟨t, hl, hp'⟩
              · exact hc _ h
              · rw [hs] at hl
                cases hl
                subst hp'
                constructor
                · intro hcontra
                  rw [ha] at hcontra
                  simp at hcontra
                · intro _
                  exact hbat

/-- `_labeller_endpoint` for a brand-new session id with reader inputs. -/
theorem labeller_endpoint_new
    (model : ModelHandle) (cache : Cache) (session_id : String)
    (batch_size : Nat) (submit : Bool) (r : List (String × Nat))
    (submission : Option (List Nat))
    (hs : cacheLookup cache session_id = none) :
    _labeller_endpoint model cache session_id batch_size submit (some r)
        submission
      = labellerStep
          (cacheUpdate cache session_id
            { generator := model.dataset_labeller session_id batch_size r,
              awaiting_submission := false, session_complete := false })
          session_id (model.dataset_labeller session_id batch_size r) false
          submit submission := by
  unfold _labeller_endpoint
  rw [hs]

/-- Every labeller request preserves the session invariant on the whole
table. -/
theorem labeller_endpoint_preserves_inv
    (model : ModelHandle) (cache : Cache) (session_id : String)
    (batch_size : Nat) (submit : Bool)
    (reader_inputs : Option (List (String × Nat)))
    (submission : Option (List Nat)) (hc : CacheInv cache) :
    CacheInv (_labeller_endpoint model cache session_id batch_size submit
      reader_inputs submission).2 := by
  cases hl : cacheLookup cache session_id with
  | some s =>
      rw [labeller_endpoint_existing model cache session_id batch_size submit
        reader_inputs submission s hl]
      exact labellerStep_preserves_inv cache session_id s submit submission
        hl hc
  | none =>
      cases reader_inputs with
      | none =>
          unfold _labeller_endpoint
          rw [hl]
          exact hc
      | some r =>
          rw [labeller_endpoint_new model cache session_id batch_size submit
            r submission hl]
          have hfresh : CacheInv (cacheUpdate cache session_id
              { generator := model.dataset_labeller session_id batch_size r,
                awaiting_submission := false, session_complete := false }) := by
            intro p hp
            rcases mem_cacheUpdate hp with h | h
            · exact hc _ h
            · subst h
              exact ⟨by simp, by simp⟩
          exact labellerStep_preserves_inv _ session_id
            { generator := model.dataset_labeller session_id batch_size r,
              awaiting_submission := false, session_complete := false }
            submit submission
            (cacheLookup_cacheUpdate_self cache session_id _) hfresh

/-- One labelling request, as routed to `_labeller_endpoint`. -/
structure LabelRequest where
  session_id : String
  batch_size : Nat
  submit : Bool
  reader_inputs : Option (List (String × Nat))
  submission : Option (List Nat)

/-- Run a sequence of labelling requests against the session table,
threading the table through (responses and errors are discarded; errors
leave the table unchanged). -/
def runLabelRequests (model : ModelHandle) :
    List LabelRequest → Cache → Cache
  | [], c => c
  | r :: rs, c =>
      runLabelRequests model rs
        (_labeller_endpoint model c r.session_id r.batch_size r.submit
          r.reader_inputs r.submission).2

theorem runLabelRequests_preserves_inv (model : ModelHandle)
    (requests : List LabelRequest) :
    ∀ c : Cache, CacheInv c → CacheInv (runLabelRequests model requests c) := by
  induction requests with
  | nil => intro c hc; exact hc
  | cons r rs ih =>
      intro c hc
      exact ih _ (labeller_endpoint_preserves_inv model c r.session_id
        r.batch_size r.submit r.reader_inputs r.submission hc)

/-- "A batch has been delivered and awaits submission." -/
def batchAwaiting (s : Session) : Prop := s.awaiting_submission = true

/-- "The session is complete." -/
def sessionCompleteState (s : Session) : Prop := s.session_complete = true

/-- "The session is ready for its next batch." -/
def readyForNextBatch (s : Session) : Prop :=
  s.awaiting_submission = false ∧ s.session_complete = false

/-- C9: after any sequence of labelling requests starting from the empty
session table, every session in the table satisfies exactly one of the
three conditions {batch delivered awaiting submission, session complete,
ready for next batch}; in particular `awaiting_submission` and
`session_complete` are never simultaneously true. -/
theorem labeller_exactly_one_session_state
    (model : ModelHandle) (requests : List LabelRequest)
    (session_id : String) (s : Session)
    (hs : cacheLookup (runLabelRequests model requests []) session_id
      = some s) :
    (batchAwaiting s ∧ ¬sessionCompleteState s ∧ ¬readyForNextBatch s) ∨
    (sessionCompleteState s ∧ ¬batchAwaiting s ∧ ¬readyForNextBatch s) ∨
    (readyForNextBatch s ∧ ¬batchAwaiting s ∧ ¬sessionCompleteState s) := by
  have hinv : SessionInv s :=
    runLabelRequests_preserves_inv model requests []
      (by intro p hp; simp at hp) _ (cacheLookup_mem hs)
  cases hA : s.awaiting_submission with
  | true =>
      cases hC : s.session_complete with
      | true => exact absurd ⟨hA, hC⟩ hinv.1
      | false =>
          left
          exact ⟨hA, by simp [sessionCompleteState, hC],
            by simp [readyForNextBatch, hA]⟩
  | false =>
      cases hC : s.session_complete with
      | true =>
          right; left
          exact ⟨hC, by simp [batchAwaiting, hA],
            by simp [readyForNextBatch, hC]⟩
      | false =>
          right; right
          exact ⟨⟨hA, hC⟩, by simp [batchAwaiting, hA],
            by simp [sessionCompleteState, hC]⟩

/-- The session produced by a single successful next-batch request on a
fresh `testHandle` session. -/
def sessionAfterFirstBatch : Session :=
  { generator := { batches := [11], received := [] },
    awaiting_submission := true, session_complete := false }

/-- Witness for C9 at a concrete input: one next-batch request on the empty
table leaves the single session in exactly the awaiting-submission state. -/
theorem labeller_exactly_one_session_state_witness :
    (batchAwaiting sessionAfterFirstBatch
        ∧ ¬sessionCompleteState sessionAfterFirstBatch
        ∧ ¬readyForNextBatch sessionAfterFirstBatch) ∨
    (sessionCompleteState sessionAfterFirstBatch
        ∧ ¬batchAwaiting sessionAfterFirstBatch
        ∧ ¬readyForNextBatch sessionAfterFirstBatch) ∨
    (readyForNextBatch sessionAfterFirstBatch
        ∧ ¬batchAwaiting sessionAfterFirstBatch
        ∧ ¬sessionCompleteState sessionAfterFirstBatch) :=
  labeller_exactly_one_session_state testHandle
    [{ session_id := "s", batch_size := 3, submit := false,
       reader_inputs := some [], submission := none }] "s"
    sessionAfterFirstBatch rfl

/-! Lemmas about the predict dispatcher. -/

/-- `predictWithModel` never reassigns the Model Handle's cache slots. -/
theorem predictWithModel_handle_unchanged
    (model : ModelHandle) (remote : Remote) (localFlag : Bool)
    (model_name : Option String) (inputs : Option (List (String × Nat)))
    (features : Option (List Nat)) (latest_model : Nat) (effs0 : List Eff) :
    (predictWithModel model remote localFlag model_name inputs features
      latest_model effs0).2.1 = model := by
  unfold predictWithModel
  cases localFlag <;> by_cases hi : truthy inputs = true <;>
    by_cases hf : truthy features = true <;> simp [hi, hf]

/-- The only error `predictWithModel` can produce is the unbound
`predict_wf` variable. -/
theorem predictWithModel_error_is_unbound
    (model : ModelHandle) (remote : Remote) (localFlag : Bool)
    (model_name : Option String) (inputs : Option (List (String × Nat)))
    (features : Option (List Nat)) (latest_model : Nat) (effs0 : List Eff)
    (e : PredictError)
    (he : (predictWithModel model remote localFlag model_name inputs features
      latest_model effs0).1 = Except.error e) :
    e = PredictError.unboundPredictWf := by
  unfold predictWithModel at he
  cases localFlag <;> by_cases hi : truthy inputs = true <;>
    by_cases hf : truthy features = true <;> simp [hi, hf] at he <;> simp_all

/-- C4: predict fails visibly exactly when no trained model can be resolved
for the requested source.  With `model_source = "local"` it fails with the
500 "trained model not found" (`ModelNotTrained`) exactly when the handle's
`latest_model` cache is empty; with `model_source = "remote"` it fails with
`NoTrainedModelFound` (the unpacking of the execution list) exactly when the
gateway has no SUCCEEDED execution of the resolved train workflow; in both
failure cases nothing is executed — the local run performs no collaborator
call at all and the remote run only the train-workflow fetch and the
execution listing. -/
theorem predict_fails_iff_no_trained_model
    (model : ModelHandle) (remote : Remote) (localFlag : Bool)
    (model_name : Option String) (model_version : String)
    (inputs : Option (List (String × Nat))) (features : Option (List Nat)) :
    (((_predict_endpoint model remote localFlag model_name model_version
        "local" inputs features).1
      = Except.error (PredictError.httpException 500 "trained model not found"))
      ↔ model.latest_model = none) ∧
    (((_predict_endpoint model remote localFlag model_name model_version
        "remote" inputs features).1
      = Except.error PredictError.noTrainedModelFound)
      ↔ listExecutionsPaginated remote
          (match model_name with
           | some n => n ++ ".train"
           | none => model.train_workflow_name) = []) ∧
    (model.latest_model = none →
      (_predict_endpoint model remote localFlag model_name model_version
        "local" inputs features).2.2 = []) ∧
    (listExecutionsPaginated remote
        (match model_name with
         | some n => n ++ ".train"
         | none => model.train_workflow_name) = [] →
      (_predict_endpoint model remote localFlag model_name model_version
        "remote" inputs features).2.2
        = [Eff.fetch_workflow
            (match model_name with
             | some n => n ++ ".train"
             | none => model.train_workflow_name),
           Eff.list_executions
            (match model_name with
             | some n => n ++ ".train"
             | none => model.train_workflow_name)]) := by
  refine ⟨?_, ?_, ?_, ?_⟩
  · unfold _predict_endpoint
    simp only [String.reduceEq, Bool.false_eq_true, if_false]
    cases hm : model.latest_model with
    | none => simp
    | some m =>
        simp only [reduceCtorEq, iff_false]
        intro hcontra
        have := predictWithModel_error_is_unbound model remote localFlag
          model_name inputs features m [] _ hcontra
        simp at this
  · unfold _predict_endpoint
    simp only [BEq.refl, if_true]
    cases hl : listExecutionsPaginated remote
        (match model_name with
         | some n => n ++ ".train"
         | none => model.train_workflow_name) with
    | nil => simp
    | cons ex rest =>
        simp only [reduceCtorEq, iff_false]
        intro hcontra
        have := predictWithModel_error_is_unbound model remote localFlag
          model_name inputs features ex.trained_model _ _ hcontra
        simp at this
  · intro hm
    unfold _predict_endpoint
    simp [hm]
  · intro hl
    unfold _predict_endpoint
    simp [hl]

/-- Witness for C4 at concrete inputs: with an empty local cache the local
run performs no collaborator call, and with an empty execution history the
remote run performs only the train-workflow fetch and the execution
listing. -/
theorem predict_fails_iff_no_trained_model_witness :
    (_predict_endpoint testHandle testRemote true none "latest" "local"
      none none).2.2 = [] ∧
    (_predict_endpoint testHandle testRemote true none "latest" "remote"
      none none).2.2
      = [Eff.fetch_workflow "m.train", Eff.list_executions "m.train"] :=
  ⟨(predict_fails_iff_no_trained_model testHandle testRemote true none
      "latest" none none).2.2.1 rfl,
   (predict_fails_iff_no_trained_model testHandle testRemote true none
      "latest" none none).2.2.2 rfl⟩

/-- The predict dispatcher hands the Model Handle back with its cache slots
untouched: no branch of `_predict_endpoint` reassigns them. -/
theorem predict_endpoint_handle_unchanged
    (model : ModelHandle) (remote : Remote) (localFlag : Bool)
    (model_name : Option String) (model_version model_source : String)
    (inputs : Option (List (String × Nat))) (features : Option (List Nat)) :
    (_predict_endpoint model remote localFlag model_name model_version
      model_source inputs features).2.1 = model := by
  unfold _predict_endpoint
  by_cases hsrc : (model_source == "remote") = true
  · simp only [hsrc, if_true]
    cases hl : listExecutionsPaginated remote
        (match model_name with
         | some n => n ++ ".train"
         | none => model.train_workflow_name) with
    | nil => rfl
    | cons ex rest => exact predictWithModel_handle_unchanged _ _ _ _ _ _ _ _
  · simp only [hsrc, Bool.false_eq_true, if_false]
    cases hm : model.latest_model with
    | none => rfl
    | some m => exact predictWithModel_handle_unchanged _ _ _ _ _ _ _ _

/-- C8: the remote train path leaves the handle's `latest_model` /
`metrics` cache pair exactly as it was; the local train path updates the
two together, from the single result of the same `model.train` call; and
the predict dispatcher (the only other handler touching the Model Handle)
never changes either slot. -/
theorem train_cache_update_discipline
    (model : ModelHandle) (remote : Remote) (model_name : Option String)
    (inputs : List (String × Nat)) (localFlag : Bool)
    (model_version model_source : String)
    (pinputs : Option (List (String × Nat))) (pfeatures : Option (List Nat)) :
    ((_train_endpoint model remote false model_name inputs).2.1.latest_model
        = model.latest_model ∧
      (_train_endpoint model remote false model_name inputs).2.1.metrics
        = model.metrics) ∧
    ((_train_endpoint model remote true model_name inputs).2.1.latest_model
        = some (model.train inputs).1 ∧
      (_train_endpoint model remote true model_name inputs).2.1.metrics
        = some (model.train inputs).2) ∧
    ((_predict_endpoint model remote localFlag model_name model_version
        model_source pinputs pfeatures).2.1.latest_model
        = model.latest_model ∧
      (_predict_endpoint model remote localFlag model_name model_version
        model_source pinputs pfeatures).2.1.metrics = model.metrics) := by
  refine ⟨⟨rfl, rfl⟩, ⟨rfl, rfl⟩, ?_, ?_⟩ <;>
    rw [predict_endpoint_handle_unchanged]

/-! Dict lemmas for the predict input assembly. -/

theorem dictGet_map_set (d : List (String × Nat)) (k k' : String) (v : Nat)
    (h : k' ≠ k) :
    dictGet (d.map (fun p => if p.1 == k' then (k', v) else p)) k
      = dictGet d k := by
  induction d with
  | nil => rfl
  | cons p rest ih =>
      obtain ⟨a, w⟩ := p
      by_cases ha : a = k'
      · subst ha
        have h1 : (a == k) = false := by simpa using h
        simp only [List.map_cons, beq_self_eq_true, if_true]
        simp only [dictGet, h1, Bool.false_eq_true, if_false]
        exact ih
      · have h2 : (a == k') = false := by simpa using ha
        simp only [List.map_cons, h2, Bool.false_eq_true, if_false]
        by_cases hak : a = k
        · subst hak
          simp only [dictGet, beq_self_eq_true, if_true]
        · have h3 : (a == k) = false := by simpa using hak
          simp only [dictGet, h3, Bool.false_eq_true, if_false]
          exact ih

theorem dictGet_append_single (d : List (String × Nat)) (k k' : String)
    (v : Nat) (h : k' ≠ k) :
    dictGet (d ++ [(k', v)]) k = dictGet d k := by
  induction d with
  | nil =>
      have h1 : (k' == k) = false := by simpa using h
      simp [dictGet, h1]
  | cons p rest ih =>
      obtain ⟨a, w⟩ := p
      by_cases hak : a = k
      · subst hak
        simp [dictGet]
      · have h1 : (a == k) = false := by simpa using hak
        simp [dictGet, h1, ih]

theorem dictGet_dictSet_other (d : List (String × Nat)) (k k' : String)
    (v : Nat) (h : k' ≠ k) :
    dictGet (dictSet d k' v) k = dictGet d k := by
  unfold dictSet
  by_cases hc : ((d.map Prod.fst).contains k') = true
  · simp only [hc, if_true]
    exact dictGet_map_set d k k' v h
  · simp only [hc, Bool.false_eq_true, if_false]
    exact dictGet_append_single d k k' v h

theorem dictGet_dictUpdate_not_mem (d d2 : List (String × Nat)) (k : String)
    (h : k ∉ d2.map Prod.fst) :
    dictGet (dictUpdate d d2) k = dictGet d k := by
  induction d2 generalizing d with
  | nil => rfl
  | cons p rest ih =>
      obtain ⟨a, v⟩ := p
      simp only [List.map_cons, List.mem_cons, not_or] at h
      unfold dictUpdate
      rw [ih _ h.2]
      exact dictGet_dictSet_other d k a v (fun hh => h.1 hh.symm)

/-- On the local execution path, the predict dispatcher scores by calling
the Model Handle's local predict on the assembled workflow inputs, whose
`"model"` entry is exactly the resolved model — provided the caller's
`inputs` do not themselves bind the key `"model"` (a `dict.update` would
overwrite it). -/
theorem predictWithModel_local_scores_with_model
    (model : ModelHandle) (remote : Remote) (model_name : Option String)
    (inputs : Option (List (String × Nat))) (features : Option (List Nat))
    (latest_model : Nat) (effs0 : List Eff)
    (hkey : "model" ∉ (inputs.getD []).map Prod.fst) :
    ∃ wi,
      (predictWithModel model remote true model_name inputs features
        latest_model effs0).1 = Except.ok (model.predict wi) ∧
      dictGet wi "model" = some latest_model := by
  unfold predictWithModel
  by_cases hi : truthy inputs = true
  · refine ⟨dictUpdate [("model", latest_model)] (inputs.getD []), ?_, ?_⟩
    · simp [hi]
    · rw [dictGet_dictUpdate_not_mem _ _ _ hkey]
      rfl
  · by_cases hf : truthy features = true
    · refine ⟨dictSet [("model", latest_model)] "features"
        (model.dataset_get_features (features.getD [])), ?_, ?_⟩
      · simp [hi, hf]
      · rw [dictGet_dictSet_other _ _ _ _ (by decide)]
        rfl
    · exact ⟨[("model", latest_model)], by simp [hi, hf], rfl⟩

/-- On the local execution path the predict dispatcher's collaborator calls
are only workflow-definition fetches, feature materialisation and the local
predict itself — never a remote execution, execution listing or sync. -/
theorem predictWithModel_local_effects
    (model : ModelHandle) (remote : Remote) (model_name : Option String)
    (inputs : Option (List (String × Nat))) (features : Option (List Nat))
    (latest_model : Nat) (effs0 : List Eff) (e : Eff)
    (he : e ∈ (predictWithModel model remote true model_name inputs features
      latest_model effs0).2.2) :
    e ∈ effs0 ∨ (∃ n, e = Eff.fetch_workflow n) ∨ e = Eff.get_features ∨
      e = Eff.localPredict := by
  unfold predictWithModel at he
  by_cases hi : truthy inputs = true
  · simp [hi] at he
    rcases he with he | he | he
    · exact Or.inl he
    · exact Or.inr (Or.inl ⟨_, he⟩)
    · exact Or.inr (Or.inr (Or.inr he))
  · by_cases hf : truthy features = true
    · simp [hi, hf] at he
      rcases he with he | he | he | he
      · exact Or.inl he
      · exact Or.inr (Or.inr (Or.inl he))
      · exact Or.inr (Or.inl ⟨_, he⟩)
      · exact Or.inr (Or.inr (Or.inr he))
    · simp [hi, hf] at he
      rcases he with he | he
      · exact Or.inl he
      · exact Or.inr (Or.inr (Or.inr he))

/-- C7 counterexample: the claim that a local train followed by a local
predict with `model_source = "local"` involves no call at all to the Remote
Execution Gateway is refuted by the code: when `inputs` are supplied, the predict
handler fetches the predict workflow definition from the gateway even on
the purely local path. -/
theorem local_predict_after_local_train_fetches_workflow :
    Eff.fetch_workflow "m.predict" ∈
      (_predict_endpoint (_train_endpoint testHandle testRemote true none []).2.1
        testRemote true none "latest" "local" (some [("x", 5)]) none).2.2 := by
  decide

/-- C7 amended: a successful local train followed immediately by a local
predict with `model_source = "local"` scores with exactly the model
produced by that train, read from the handle's cache (assuming the caller's
`inputs` do not rebind the `"model"` key), and involves no remote
execution, no execution listing and no execution sync — though it does
fetch a predict workflow definition from the Remote Execution Gateway
whenever `inputs` or `features` are supplied. -/
theorem local_train_then_local_predict_uses_cached_model
    (model : ModelHandle) (remote : Remote) (model_name : Option String)
    (model_version : String) (trainInputs : List (String × Nat))
    (inputs : Option (List (String × Nat))) (features : Option (List Nat))
    (hkey : "model" ∉ (inputs.getD []).map Prod.fst) :
    ((_train_endpoint model remote true model_name trainInputs).2.1.latest_model
        = some (model.train trainInputs).1) ∧
    (∃ wi,
      (_predict_endpoint
          (_train_endpoint model remote true model_name trainInputs).2.1
          remote true model_name model_version "local" inputs features).1
        = Except.ok (model.predict wi) ∧
      dictGet wi "model" = some (model.train trainInputs).1) ∧
    (∀ e ∈ (_predict_endpoint
          (_train_endpoint model remote true model_name trainInputs).2.1
          remote true model_name model_version "local" inputs features).2.2,
      (∀ n, e ≠ Eff.executeRemote n) ∧ (∀ n, e ≠ Eff.list_executions n) ∧
        e ≠ Eff.syncExecution) := by
  refine ⟨rfl, ?_, ?_⟩
  · exact predictWithModel_local_scores_with_model _ remote model_name inputs
      features ((model.train trainInputs).1) [] hkey
  · intro e he
    have h := predictWithModel_local_effects _ remote model_name inputs
      features ((model.train trainInputs).1) [] e he
    rcases h with h | ⟨n, h⟩ | h | h
    · simp at h
    · subst h
      exact ⟨fun n' => by simp, fun n' => by simp, by simp⟩
    · subst h
      exact ⟨fun n' => by simp, fun n' => by simp, by simp⟩
    · subst h
      exact ⟨fun n' => by simp, fun n' => by simp, by simp⟩

/-- Witness for the C7 amended theorem at concrete inputs. -/
theorem local_train_then_local_predict_uses_cached_model_witness :
    (_train_endpoint testHandle testRemote true none []).2.1.latest_model
      = some (testHandle.train []).1 :=
  (local_train_then_local_predict_uses_cached_model testHandle testRemote
    none "latest" [] (some [("x", 5)]) none (by decide)).1

end FklFastapi
